import Mathlib

/-!
Verification development for the product-information chatbot
(`src/chatbot.py`).  The Python class `ProductChatbot` is shallowly
embedded: pure methods become Lean functions, the mutable object state
(`products`, `user_role`, `conversation_history`) becomes an explicit
`ChatBot` record threaded through `processMessage`, the external OpenAI
call becomes a gateway oracle parameter, and Python exceptions become
`Except` errors.  Numeric product prices are modelled as exact
rationals, and Python `str.lower` is modelled as ASCII lowercasing
(identity on the Arabic block, as in Python).
-/

/-- The two languages `detect_language` can return (`'arabic'`/`'english'`). -/
inductive Lang
  | english
  | arabic
deriving DecidableEq, Repr

/-- Speaker tag of a transcript entry (`"user"` / `"assistant"` in the
`conversation_history` dicts). -/
inductive Speaker
  | user
  | assistant
deriving DecidableEq, Repr

/-- One entry of `conversation_history`: a `{"role": ..., "content": ...}` dict. -/
structure Entry where
  speaker : Speaker
  content : String
deriving DecidableEq, Repr

/-- `UserRole` enum from `chatbot.py`. -/
inductive UserRole
  | customer
  | staff
deriving DecidableEq, Repr

/-- A product record of the catalog JSON (`products` list).  `price` is a
non-negative number (modelled exactly as a rational), `units_sold` a
non-negative integer. -/
structure Product where
  id : String
  name : String
  name_ar : String
  price : ℚ
  currency : String
  category : String
  units_sold : Nat
  description : String
  description_ar : String
deriving DecidableEq, Repr

/-- The mutable state of a `ProductChatbot` instance that the routing layer
reads and writes: the catalog, the session role and the transcript. -/
structure ChatBot where
  products : List Product
  user_role : UserRole
  conversation_history : List Entry
deriving DecidableEq, Repr

/-- Outcome of one `_get_ai_response` call: the reply text, or `err` when the
external call raises any exception. -/
inductive GwRes
  | ok (s : String)
  | err
deriving DecidableEq, Repr

/-- The Model Gateway as an oracle: given the prior transcript
(`conversation_history[:-1]`) and the user-turn content, produce a reply or
fail.  (The constant system prompt is part of the oracle's closure.) -/
def Gw : Type := List Entry → String → GwRes

/-! ### Python string primitives -/

/-- Decides whether `needle` is a prefix of `hay` (over character lists). -/
def listPre : List Char → List Char → Bool
  | [], _ => true
  | _ :: _, [] => false
  | a :: as, b :: bs => a == b && listPre as bs

/-- Decides whether `needle` occurs as a contiguous substring of `hay`. -/
def listSub (needle : List Char) : List Char → Bool
  | [] => needle.isEmpty
  | b :: t => listPre needle (b :: t) || listSub needle t

/-- Python's `needle in hay` on strings: substring containment. -/
def pyIn (needle hay : String) : Bool :=
  listSub needle.toList hay.toList

/-- Python's `str.lower` on one character, restricted to ASCII: uppercase
ASCII letters are lowered, everything else (including the whole Arabic
block) is unchanged, exactly as Python behaves on the alphabets this
program works with. -/
def pyLowerChar (c : Char) : Char :=
  if 0x41 ≤ c.toNat && c.toNat ≤ 0x5A then Char.ofNat (c.toNat + 32) else c

/-- Python's `str.lower` (characterwise, see `pyLowerChar`). -/
def pyLower (s : String) : String :=
  String.mk (s.toList.map pyLowerChar)

/-! ### Language detector (`detect_language`, chatbot.py lines 122-138) -/

/-- Membership in the Arabic Unicode block `'؀' <= char <= 'ۿ'`. -/
def isArabicChar (c : Char) : Bool :=
  0x0600 ≤ c.toNat && c.toNat ≤ 0x06FF

/-- The test `'a' <= char.lower() <= 'z'` of `detect_language`. -/
def isLatinLetter (c : Char) : Bool :=
  0x61 ≤ (pyLowerChar c).toNat && (pyLowerChar c).toNat ≤ 0x7A

/-- `arabic_count`: number of characters of `text` in the Arabic block. -/
def arabicCount (text : String) : Nat :=
  text.toList.countP isArabicChar

/-- `english_count`: number of characters of `text` that are ASCII letters,
counted case-insensitively. -/
def englishCount (text : String) : Nat :=
  text.toList.countP isLatinLetter

/-- `detect_language`: Arabic when the Arabic-block count strictly exceeds
the Latin-letter count, else English. -/
def detect_language (text : String) : Lang :=
  if arabicCount text > englishCount text then .arabic else .english

/-! ### Session reset (`reset_conversation`, chatbot.py lines 400-402) -/

/-- `reset_conversation`: replaces `conversation_history` with `[]`. -/
def resetConversation (b : ChatBot) : ChatBot :=
  { b with conversation_history := [] }

/-! ### Staff-topic gate (`_check_staff_only_request`, chatbot.py lines 175-200) -/

/-- The fixed `staff_keywords` list of `_check_staff_only_request`
(English keywords, then their Arabic equivalents). -/
def staff_keywords : List String :=
  ["report", "analytics", "revenue", "sales", "dashboard", "performance",
   "تقرير", "تقارير",
   "تحليلات",
   "إيرادات",
   "الإيرادات",
   "مبيعات",
   "المبيعات"]

/-- `is_staff_request`: some staff-topic keyword occurs in the lowercased
message. -/
def staffTopicMatch (msg : String) : Bool :=
  staff_keywords.any (fun k => pyIn k (pyLower msg))

/-- The localized staff-only rejection text returned by
`_check_staff_only_request`. -/
def staffTopicRejection (lang : Lang) : String :=
  if lang == .arabic then
    "تقارير المبيعات والتحليلات متاحة فقط لموظفي الشركة. يمكنني مساعدتك بمعلومات عن المنتجات بدلاً من ذلك."
  else
    "Sales reports and analytics are only available to staff members. I can help you with product information instead."

/-- `_check_staff_only_request`: when a staff-topic keyword matches and the
role is Customer, return the localized rejection, else `none`. -/
def checkStaffOnlyRequest (role : UserRole) (msg : String) : Option String :=
  if staffTopicMatch msg && role == .customer then
    some (staffTopicRejection (detect_language msg))
  else
    none

/-! ### Attribute-access gate (`_build_attribute_policies`,
`_check_attribute_access`, chatbot.py lines 140-160 and 202-216) -/

/-- One value of the `attribute_policies` dict: a staff-only flag and the
trigger keywords. -/
structure AttrPolicy where
  staff_only : Bool
  keywords : List String
deriving DecidableEq, Repr

/-- `_build_attribute_policies`: the static attribute policy table, in the
dict's insertion order. -/
def attribute_policies : List (String × AttrPolicy) :=
  [("name", ⟨false, ["name", "called", "product"]⟩),
   ("description", ⟨false, ["description", "details", "about"]⟩),
   ("category", ⟨false, ["category", "type", "segment", "kind"]⟩),
   ("price", ⟨false, ["price", "cost", "how much", "usd", "dollar"]⟩),
   ("units_sold",
     ⟨true,
      ["units sold", "sold units", "units", "sold", "sales volume",
       "best seller", "top seller", "most sold", "most selling",
       "وحدات مباعة",
       "الوحدات المباعة",
       "مباعة",
       "الأكثر مبيعاً",
       "أفضل مبيعاً"]⟩),
   ("revenue",
     ⟨true,
      ["revenue", "total sales", "sales revenue", "earnings",
       "إيرادات",
       "الإيرادات",
       "المبيعات"]⟩)]

/-- The localized rejection text returned by `_check_attribute_access`. -/
def attributeRejection (lang : Lang) : String :=
  if lang == .arabic then
    "هذه المعلومة متاحة فقط لموظفي الشركة."
  else
    "This information is available to staff only."

/-- The `for attr, policy in self.attribute_policies.items()` loop of
`_check_attribute_access`: skip entries not flagged `staff_only`, return the
localized rejection on the first entry with a matching keyword. -/
def attrScan (lower msg : String) : List (String × AttrPolicy) → Option String
  | [] => none
  | (_, pol) :: rest =>
    if pol.staff_only && pol.keywords.any (fun k => pyIn k lower) then
      some (attributeRejection (detect_language msg))
    else
      attrScan lower msg rest

/-- `_check_attribute_access`: staff passes, a customer message matching a
staff-only attribute keyword is rejected. -/
def checkAttributeAccess (role : UserRole) (msg : String) : Option String :=
  if role == .staff then none
  else attrScan (pyLower msg) msg attribute_policies

/-- Whether the lowercased message contains a keyword of some `staff_only`
attribute-policy entry. -/
def customerAttrMatch (msg : String) : Bool :=
  attribute_policies.any
    (fun e => e.2.staff_only && e.2.keywords.any (fun k => pyIn k (pyLower msg)))

/-- The `['report', 'analytics']` keyword test on process_message line 329. -/
def reportKwMatch (msg : String) : Bool :=
  ["report", "analytics"].any (fun k => pyIn k (pyLower msg))

/-! ### Analytics engine (chatbot.py lines 218-304) -/

/-- `total_revenue = sum(p['price'] * p['units_sold'] for p in products)`. -/
def totalRevenue (ps : List Product) : ℚ :=
  (ps.map (fun p => p.price * (p.units_sold : ℚ))).sum

/-- `total_units = sum(p['units_sold'] for p in products)`. -/
def totalUnits (ps : List Product) : Nat :=
  (ps.map (fun p => p.units_sold)).sum

/-- Python's `max(products, key=lambda x: x['units_sold'])`: the first
record with the maximal `units_sold`, or `none` on an empty list (where
Python raises `ValueError`). -/
def pyMax (ps : List Product) : Option Product :=
  match ps with
  | [] => none
  | h :: t => some (t.foldl (fun acc x => if acc.units_sold < x.units_sold then x else acc) h)

/-- Groups a reversed digit list into blocks of three, least-significant
block first (for thousands separators). -/
def chunk3 : List Char → List (List Char)
  | [] => []
  | [a] => [[a]]
  | [a, b] => [[a, b]]
  | a :: b :: c :: rest => [a, b, c] :: chunk3 rest

/-- Inserts `,` thousands separators into a digit string. -/
def withCommas (s : String) : String :=
  String.mk (List.intercalate [','] (((chunk3 s.toList.reverse).map List.reverse).reverse))

/-- Rounding to an integer, ties to even — the rounding Python's `format`
applies to the (exactly modelled) numeric value. -/
def roundHalfEven (q : ℚ) : Int :=
  let f : Int := q.floor
  let r : ℚ := q - (f : ℚ)
  if r > 1/2 then f + 1
  else if r < 1/2 then f
  else if f % 2 = 0 then f else f + 1

/-- Python's `f"{x:,.2f}"`: two decimal places and thousands separators. -/
def fmtMoney (q : ℚ) : String :=
  let cents := roundHalfEven (q * 100)
  let n := cents.natAbs
  (if cents < 0 then "-" else "")
    ++ withCommas (toString (n / 100)) ++ "."
    ++ (if n % 100 < 10 then "0" ++ toString (n % 100) else toString (n % 100))

/-- `fmt_en_revenue` of `_handle_staff_analytics`. -/
def fmt_en_revenue (ps : List Product) : String :=
  "Total revenue: $" ++ fmtMoney (totalRevenue ps) ++ " USD."

/-- `fmt_ar_revenue` of `_handle_staff_analytics`. -/
def fmt_ar_revenue (ps : List Product) : String :=
  "إجمالي الإيرادات: $" ++ fmtMoney (totalRevenue ps) ++ " دولار أمريكي."

/-- `fmt_en_units` of `_handle_staff_analytics`. -/
def fmt_en_units (ps : List Product) : String :=
  "Total units sold: " ++ toString (totalUnits ps) ++ "."

/-- `fmt_ar_units` of `_handle_staff_analytics`. -/
def fmt_ar_units (ps : List Product) : String :=
  "إجمالي الوحدات المباعة: " ++ toString (totalUnits ps) ++ "."

/-- `fmt_en_best` of `_handle_staff_analytics` (with the `"No products
available."` sentinel when the catalog is empty). -/
def fmt_en_best (ps : List Product) : String :=
  match pyMax ps with
  | some b =>
    "Best seller: " ++ b.name ++ " — " ++ toString b.units_sold ++ " units "
      ++ "($" ++ fmtMoney (b.price * (b.units_sold : ℚ)) ++ ")."
  | none => "No products available."

/-- `fmt_ar_best` of `_handle_staff_analytics` (with the Arabic sentinel
when the catalog is empty). -/
def fmt_ar_best (ps : List Product) : String :=
  match pyMax ps with
  | some b =>
    "أفضل منتج مبيعاً: " ++ b.name_ar ++ " — " ++ toString b.units_sold ++ " وحدة "
      ++ "($" ++ fmtMoney (b.price * (b.units_sold : ℚ)) ++ ")."
  | none => "لا توجد منتجات متاحة."

/-- The `revenue_keywords` list of `_handle_staff_analytics`. -/
def revenue_keywords : List String :=
  ["revenue", "total revenue",
   "إيرادات",
   "الإيرادات",
   "إجمالي الإيرادات",
   "المبيعات",
   "إجمالي المبيعات",
   "تقرير المبيعات"]

/-- The `units_keywords` word pairs of `_handle_staff_analytics`. -/
def units_keywords : List (List String) :=
  [["units", "sold"],
   ["وحدات", "مباعة"],
   ["الوحدات", "المباعة"]]

/-- The `best_seller_keywords` list of `_handle_staff_analytics`. -/
def best_seller_keywords : List String :=
  ["best seller", "top seller", "most sold", "most selling",
   "الأكثر مبيعاً",
   "أفضل مبيعاً",
   "الأكثر مبيعا",
   "أكثر منتج"]

/-- Whether some `revenue_keywords` entry occurs in the lowercased message. -/
def revenueKwMatch (msg : String) : Bool :=
  revenue_keywords.any (fun k => pyIn k (pyLower msg))

/-- Whether both words of some `units_keywords` pair occur in the lowercased
message. -/
def unitsKwMatch (msg : String) : Bool :=
  units_keywords.any (fun pair => pair.all (fun w => pyIn w (pyLower msg)))

/-- Whether some `best_seller_keywords` entry occurs in the lowercased
message. -/
def bestKwMatch (msg : String) : Bool :=
  best_seller_keywords.any (fun k => pyIn k (pyLower msg))

/-- `_handle_staff_analytics`: deterministic staff answers, checking the
keyword families in the fixed order revenue, units, best seller. -/
def handleStaffAnalytics (role : UserRole) (ps : List Product) (msg : String)
    (language : Lang) : Option String :=
  if role != .staff then none
  else if revenueKwMatch msg then
    some (if language == .english then fmt_en_revenue ps else fmt_ar_revenue ps)
  else if unitsKwMatch msg then
    some (if language == .english then fmt_en_units ps else fmt_ar_units ps)
  else if bestKwMatch msg then
    some (if language == .english then fmt_en_best ps else fmt_ar_best ps)
  else none

/-! ### Sales report (`_generate_sales_report`, chatbot.py lines 218-250)

Python's `sorted(products, key=lambda x: x['units_sold'], reverse=True)` is
a stable sort: records are ordered by descending `units_sold` and records
with equal `units_sold` keep their original catalog order.  It is modelled
by the decorate-sort-undecorate scheme: pair each record with its original
index, sort by (`units_sold` descending, index ascending) — a linear order
on the decorated list, so the sorted result is unique and algorithm
independent — and drop the indices. -/

/-- Pairs each list element with its position, starting at `n`. -/
def withIdx : Nat → List Product → List (Nat × Product)
  | _, [] => []
  | n, p :: t => (n, p) :: withIdx (n + 1) t

/-- Order on index-decorated records: strictly more units first, original
order on ties. -/
def sortKeyLE (a b : Nat × Product) : Prop :=
  b.2.units_sold < a.2.units_sold ∨ (a.2.units_sold = b.2.units_sold ∧ a.1 ≤ b.1)

instance : DecidableRel sortKeyLE := fun a b => by
  unfold sortKeyLE; infer_instance

instance : IsTotal (Nat × Product) sortKeyLE :=
  ⟨fun a b => by unfold sortKeyLE; omega⟩

instance : IsTrans (Nat × Product) sortKeyLE :=
  ⟨fun a b c hab hbc => by unfold sortKeyLE at *; omega⟩

/-- The decorated, sorted catalog. -/
def sortedEnum (ps : List Product) : List (Nat × Product) :=
  (withIdx 0 ps).insertionSort sortKeyLE

/-- `sorted_products` of `_generate_sales_report`: the catalog sorted by
`units_sold` descending, stable. -/
def sortedProducts (ps : List Product) : List Product :=
  (sortedEnum ps).map Prod.snd

/-- `_generate_sales_report`: renders the report text, or fails (Python
raises `ValueError` from `max()` on an empty sequence) when the catalog is
empty.  `now` stands for `datetime.now().strftime(...)`. -/
def generateSalesReport (ps : List Product) (now : String) : Except Unit String :=
  let total_revenue := totalRevenue ps
  let total_units := totalUnits ps
  match pyMax ps with
  | none => .error ()
  | some best_seller =>
    let header :=
      "\n=== SALES REPORT ===\nGenerated: " ++ now
        ++ "\n\nSummary:\n- Total Products: " ++ toString ps.length
        ++ "\n- Total Units Sold: " ++ toString total_units
        ++ "\n- Total Revenue: $" ++ fmtMoney total_revenue
        ++ "\n\nTop Performer:\n- Product: " ++ best_seller.name
        ++ "\n- Units Sold: " ++ toString best_seller.units_sold
        ++ "\n- Revenue: $" ++ fmtMoney (best_seller.price * (best_seller.units_sold : ℚ))
        ++ "\n\nProducts by Sales:\n"
    .ok ((sortedProducts ps).foldl
      (fun report product =>
        report ++ "\n- " ++ product.name ++ ": " ++ toString product.units_sold
          ++ " units ($" ++ fmtMoney (product.price * (product.units_sold : ℚ)) ++ ")")
      header)

/-! ### Policy router (`process_message`, chatbot.py lines 306-378) -/

/-- The fixed apology `process_message` returns when the Model Gateway call
raises. -/
def apologyText : String :=
  "I apologize, but I\u0027m experiencing technical difficulties. Please try again later."

/-- The surrogate user content of the one-shot language-correction call:
`f"{restate_instruction}\nQuestion: {user_message}"`. -/
def correctionPrompt (userLang : Lang) (msg : String) : String :=
  (if userLang == .english then
    "Respond ONLY in English. Do not include any Arabic. "
  else
    "أعد الإجابة باللغة العربية فقط ولا تستخدم الإنجليزية.")
  ++ "\nQuestion: " ++ msg

/-- `process_message`.  Returns the response text, the updated session
state, and the list of the user-turn contents of the Model Gateway calls
made (in order); `.error` models a Python exception escaping the method. -/
def processMessage (b : ChatBot) (gw : Gw) (now msg : String) :
    Except Unit (String × ChatBot × List String) :=
  let user_language := detect_language msg
  match checkStaffOnlyRequest b.user_role msg with
  | some r => .ok (r, b, [])
  | none =>
  match checkAttributeAccess b.user_role msg with
  | some r => .ok (r, b, [])
  | none =>
  if reportKwMatch msg && b.user_role == .staff then
    match generateSalesReport b.products now with
    | .error e => .error e
    | .ok rep => .ok (rep, b, [])
  else
  match handleStaffAnalytics b.user_role b.products msg user_language with
  | some r =>
    .ok (r,
      { b with conversation_history :=
          b.conversation_history ++ [⟨.user, msg⟩, ⟨.assistant, r⟩] },
      [])
  | none =>
    let hist1 := b.conversation_history ++ [⟨Speaker.user, msg⟩]
    match gw b.conversation_history msg with
    | .err => .ok (apologyText, { b with conversation_history := hist1 }, [msg])
    | .ok resp =>
      if detect_language resp != user_language then
        let msg2 := correctionPrompt user_language msg
        match gw b.conversation_history msg2 with
        | .err =>
          .ok (apologyText, { b with conversation_history := hist1 }, [msg, msg2])
        | .ok resp2 =>
          .ok (resp2,
            { b with conversation_history := hist1 ++ [⟨Speaker.assistant, resp2⟩] },
            [msg, msg2])
      else
        .ok (resp,
          { b with conversation_history := hist1 ++ [⟨Speaker.assistant, resp⟩] },
          [msg])

/-! ### Concrete sessions and gateway stubs used to instantiate theorems -/

/-- A fresh customer session over an empty catalog. -/
def botCust : ChatBot := ⟨[], .customer, []⟩

/-- A fresh staff session over an empty catalog. -/
def emptyStaffBot : ChatBot := ⟨[], .staff, []⟩

/-- A gateway stub whose external call always raises. -/
def gwErr : Gw := fun _ _ => .err

/-- A gateway stub that answers the plain message in the wrong language
(Arabic) and any other (corrective) prompt in English. -/
def gwWrongThenRight : Gw := fun _ content =>
  if content == "hello" then .ok "مرحبا" else .ok "Hi there."

/-- A three-product catalog with units sold 10, 50, 30 (the worked example
of the specification). -/
def exampleCatalog : List Product :=
  [⟨"1", "Alpha", "ألف", 10, "USD", "cat", 10, "d", "da"⟩,
   ⟨"2", "Beta", "باء", (5 : ℚ)/2, "USD", "cat", 50, "d", "da"⟩,
   ⟨"3", "Gamma", "جيم", 7, "USD", "cat", 30, "d", "da"⟩]

/-! ### Helper lemmas -/

/-- `attrScan` returns the rejection when some staff-only entry of the list
has a matching keyword. -/
theorem attrScan_pos (lower msg : String) (l : List (String × AttrPolicy))
    (h : l.any (fun e => e.2.staff_only && e.2.keywords.any fun k => pyIn k lower) = true) :
    attrScan lower msg l = some (attributeRejection (detect_language msg)) := by
  induction l with
  | nil => simp at h
  | cons hd t ih =>
    obtain ⟨n, pol⟩ := hd
    by_cases hc : (pol.staff_only && pol.keywords.any fun k => pyIn k lower) = true
    · simp [attrScan, hc]
    · simp only [Bool.not_eq_true] at hc
      have h2 : t.any (fun e => e.2.staff_only && e.2.keywords.any fun k => pyIn k lower)
          = true := by
        simpa [List.any_cons, hc] using h
      simp [attrScan, hc, ih h2]

/-- `attrScan` falls through when no staff-only entry of the list has a
matching keyword. -/
theorem attrScan_neg (lower msg : String) (l : List (String × AttrPolicy))
    (h : l.any (fun e => e.2.staff_only && e.2.keywords.any fun k => pyIn k lower) = false) :
    attrScan lower msg l = none := by
  induction l with
  | nil => rfl
  | cons hd t ih =>
    obtain ⟨n, pol⟩ := hd
    simp only [List.any_cons, Bool.or_eq_false_iff] at h
    simp [attrScan, h.1, ih h.2]

/-- `_check_attribute_access` for a customer, phrased through
`customerAttrMatch`. -/
theorem checkAttributeAccess_customer (msg : String) :
    checkAttributeAccess .customer msg =
      if customerAttrMatch msg then
        some (attributeRejection (detect_language msg))
      else none := by
  by_cases hm : customerAttrMatch msg = true
  · simp [checkAttributeAccess, hm, attrScan_pos (pyLower msg) msg attribute_policies hm]
  · simp only [Bool.not_eq_true] at hm
    simp [checkAttributeAccess, hm, attrScan_neg (pyLower msg) msg attribute_policies hm]

/-- The projection `Prod.snd` of `withIdx` recovers the original list. -/
theorem map_snd_withIdx (n : Nat) (l : List Product) :
    (withIdx n l).map Prod.snd = l := by
  induction l generalizing n with
  | nil => rfl
  | cons p t ih => simp [withIdx, ih]

/-- Every index produced by `withIdx n` is at least `n`. -/
theorem withIdx_fst_ge (n : Nat) (l : List Product) :
    ∀ q ∈ withIdx n l, n ≤ q.1 := by
  induction l generalizing n with
  | nil => intro q hq; cases hq
  | cons p t ih =>
    intro q hq
    simp only [withIdx, List.mem_cons] at hq
    rcases hq with h | h
    · subst h; exact Nat.le_refl n
    · exact Nat.le_of_succ_le (ih (n + 1) q h)

/-- The indices produced by `withIdx` are strictly increasing. -/
theorem withIdx_pairwise_lt (n : Nat) (l : List Product) :
    (withIdx n l).Pairwise (fun a b => a.1 < b.1) := by
  induction l generalizing n with
  | nil => exact List.Pairwise.nil
  | cons p t ih =>
    refine List.Pairwise.cons ?_ (ih (n + 1))
    intro q hq
    exact Nat.lt_of_lt_of_le (Nat.lt_succ_self n) (withIdx_fst_ge (n + 1) t q hq)

/-- C6: the language detector returns Arabic exactly when the Arabic-block
character count strictly exceeds the case-insensitive ASCII-letter count,
and English otherwise; in particular ties and the empty string yield
English (and, being a total Lean function, it never fails). -/
theorem detect_language_characterisation (text : String) :
    (detect_language text = .arabic ↔ englishCount text < arabicCount text)
    ∧ (detect_language text = .english ↔ arabicCount text ≤ englishCount text)
    ∧ detect_language "" = .english := by
  unfold detect_language
  refine ⟨?_, ?_, rfl⟩ <;> split <;> simp_all

/-- C8: resetting a session clears the transcript to length 0 while leaving
the session role and the catalog unchanged. -/
theorem reset_conversation_frame (b : ChatBot) :
    (resetConversation b).conversation_history = []
    ∧ (resetConversation b).user_role = b.user_role
    ∧ (resetConversation b).products = b.products :=
  ⟨rfl, rfl, rfl⟩

/-- C1: a customer message containing a staff-topic keyword is answered by
the localized staff-only rejection (Arabic when the message detects as
Arabic, English otherwise); the Model Gateway is never invoked (the call
log is empty) and the transcript is unchanged. -/
theorem staff_topic_gate_rejects_customer (b : ChatBot) (gw : Gw) (now msg : String)
    (hrole : b.user_role = .customer) (hkw : staffTopicMatch msg = true) :
    processMessage b gw now msg =
      .ok (staffTopicRejection (detect_language msg), b, []) := by
  unfold processMessage checkStaffOnlyRequest
  simp [hrole, hkw]

/-- Witness for C1: the customer message `"sales report"` in a fresh
session. -/
theorem staff_topic_gate_rejects_customer_witness :
    staffTopicMatch "sales report" = true
    ∧ processMessage botCust gwErr "t" "sales report" =
        .ok (staffTopicRejection (detect_language "sales report"), botCust, []) :=
  ⟨by decide, staff_topic_gate_rejects_customer botCust gwErr "t" "sales report" rfl (by decide)⟩

/-- C2 counterexample: the customer message `"revenue"` contains a
`staff_only` attribute-policy keyword, yet `process_message` returns the
staff-topic rejection (the topic gate fires first), which is a different
text from the attribute rejection. -/
theorem attribute_gate_counterexample :
    customerAttrMatch "revenue" = true
    ∧ processMessage botCust gwErr "t" "revenue" =
        .ok (staffTopicRejection Lang.english, botCust, [])
    ∧ staffTopicRejection Lang.english ≠ attributeRejection Lang.english :=
  ⟨by decide, rfl, by decide⟩

/-- C2 (amended): a customer message containing a `staff_only`
attribute-policy keyword is always rejected with a localized text before
reaching the Model Gateway: with the staff-topic rejection when a
staff-topic keyword also matches (the topic gate is evaluated first), and
with the attribute rejection otherwise. -/
theorem attribute_gate_rejects_customer (b : ChatBot) (gw : Gw) (now msg : String)
    (hrole : b.user_role = .customer) (hattr : customerAttrMatch msg = true) :
    processMessage b gw now msg =
      .ok ((if staffTopicMatch msg then staffTopicRejection (detect_language msg)
            else attributeRejection (detect_language msg)), b, []) := by
  by_cases htm : staffTopicMatch msg = true
  · rw [staff_topic_gate_rejects_customer b gw now msg hrole htm]
    simp [htm]
  · simp only [Bool.not_eq_true] at htm
    unfold processMessage checkStaffOnlyRequest
    rw [hrole]
    simp only [htm, Bool.false_and, if_false]
    rw [checkAttributeAccess_customer msg]
    simp [hattr, htm]

/-- Witness for the amended C2: the customer message `"units sold"`
(attribute keyword, no staff-topic keyword) yields the attribute
rejection. -/
theorem attribute_gate_rejects_customer_witness :
    customerAttrMatch "units sold" = true
    ∧ staffTopicMatch "units sold" = false
    ∧ processMessage botCust gwErr "t" "units sold" =
        .ok ((if staffTopicMatch "units sold" then
                staffTopicRejection (detect_language "units sold")
              else attributeRejection (detect_language "units sold")), botCust, []) :=
  ⟨by decide, by decide,
   attribute_gate_rejects_customer botCust gwErr "t" "units sold" rfl (by decide)⟩

/-- C3: when every deterministic gate falls through and the gateway's first
reply detects as a different language than the input, `process_message`
makes exactly one corrective second call (with the language-correction
instruction prepended to the user turn), returns the second reply, and the
transcript gains exactly one user entry and one assistant entry — the
corrective call adds no extra transcript turn. -/
theorem language_retry_single_assistant_turn (b : ChatBot) (gw : Gw)
    (now msg r1 r2 : String)
    (h1 : checkStaffOnlyRequest b.user_role msg = none)
    (h2 : checkAttributeAccess b.user_role msg = none)
    (h3 : (reportKwMatch msg && b.user_role == .staff) = false)
    (h4 : handleStaffAnalytics b.user_role b.products msg (detect_language msg) = none)
    (h5 : gw b.conversation_history msg = .ok r1)
    (h6 : (detect_language r1 != detect_language msg) = true)
    (h7 : gw b.conversation_history (correctionPrompt (detect_language msg) msg) = .ok r2) :
    processMessage b gw now msg =
      .ok (r2,
        { b with conversation_history :=
            b.conversation_history ++ [⟨.user, msg⟩, ⟨.assistant, r2⟩] },
        [msg, correctionPrompt (detect_language msg) msg]) := by
  unfold processMessage
  simp [h1, h2, h3, h4, h5, h6, h7]

/-- Witness for C3: a stub gateway answers `"hello"` in Arabic first and
the corrective prompt in English; the English second reply is returned and
recorded once. -/
theorem language_retry_single_assistant_turn_witness :
    processMessage botCust gwWrongThenRight "t" "hello" =
      .ok ("Hi there.",
        { botCust with conversation_history :=
            botCust.conversation_history ++ [⟨.user, "hello"⟩, ⟨.assistant, "Hi there."⟩] },
        ["hello", correctionPrompt (detect_language "hello") "hello"]) :=
  language_retry_single_assistant_turn botCust gwWrongThenRight "t" "hello"
    "مرحبا" "Hi there."
    (by decide) (by decide) (by decide) (by decide) rfl (by decide) rfl

/-- C9: when the Model Gateway call fails (either the first call, or the
corrective second call), the user message appended before the call stays in
the transcript, no assistant entry is appended, and the apology is returned
without being recorded — the transcript ends with an unpaired user entry. -/
theorem gateway_failure_leaves_unpaired_user (b : ChatBot) (gw : Gw) (now msg : String)
    (h1 : checkStaffOnlyRequest b.user_role msg = none)
    (h2 : checkAttributeAccess b.user_role msg = none)
    (h3 : (reportKwMatch msg && b.user_role == .staff) = false)
    (h4 : handleStaffAnalytics b.user_role b.products msg (detect_language msg) = none) :
    (gw b.conversation_history msg = .err →
      processMessage b gw now msg =
        .ok (apologyText,
          { b with conversation_history := b.conversation_history ++ [⟨.user, msg⟩] },
          [msg]))
    ∧ ∀ r1, gw b.conversation_history msg = .ok r1 →
        (detect_language r1 != detect_language msg) = true →
        gw b.conversation_history (correctionPrompt (detect_language msg) msg) = .err →
        processMessage b gw now msg =
          .ok (apologyText,
            { b with conversation_history := b.conversation_history ++ [⟨.user, msg⟩] },
            [msg, correctionPrompt (detect_language msg) msg]) := by
  constructor
  · intro h5
    unfold processMessage
    simp [h1, h2, h3, h4, h5]
  · intro r1 h5 h6 h7
    unfold processMessage
    simp [h1, h2, h3, h4, h5, h6, h7]

/-- Witness for C9: an always-failing gateway on the customer message
`"hello"` leaves only the user entry in the transcript and returns the
apology. -/
theorem gateway_failure_leaves_unpaired_user_witness :
    processMessage botCust gwErr "t" "hello" =
      .ok (apologyText,
        { botCust with conversation_history :=
            botCust.conversation_history ++ [⟨.user, "hello"⟩] },
        ["hello"]) :=
  (gateway_failure_leaves_unpaired_user botCust gwErr "t" "hello"
    (by decide) (by decide) (by decide) (by decide)).1 rfl

/-- C4 (refuting theorem): on an empty catalog the staff best-seller
analytics answer does yield the defined sentinel, but the full sales report
does not — `max()` on the empty catalog raises, modelled by `.error`. -/
theorem empty_catalog_report_raises :
    handleStaffAnalytics .staff [] "best seller" .english = some "No products available."
    ∧ handleStaffAnalytics .staff [] "best seller" .arabic = some "لا توجد منتجات متاحة."
    ∧ generateSalesReport [] "2024-01-01 00:00:00" = .error () :=
  ⟨rfl, rfl, rfl⟩

/-- C7 (refuting theorem): the ValueError raised by the empty-catalog sales
report escapes `process_message` (the report branch sits outside the
`try`), while a failing Model Gateway call is indeed caught and replaced by
the fixed English-only apology. -/
theorem process_message_exception_escapes :
    processMessage emptyStaffBot gwErr "2024-01-01 00:00:00" "report" = .error ()
    ∧ processMessage botCust gwErr "t" "hi" =
        .ok (apologyText, { botCust with conversation_history := [⟨.user, "hi"⟩] }, ["hi"])
    ∧ processMessage botCust gwErr "t" "مرحبا" =
        .ok (apologyText, { botCust with conversation_history := [⟨.user, "مرحبا"⟩] },
          ["مرحبا"]) :=
  ⟨rfl, rfl, rfl⟩

/-- C5: total revenue is the sum of `price * units_sold`, total units the
sum of `units_sold`, and the rows of the sales report are a permutation of
the catalog, sorted by `units_sold` descending, with ties keeping the
original catalog order (on the index-decorated rows, equal-units pairs
appear in strictly increasing original position). -/
theorem sales_report_aggregates_and_order (ps : List Product) :
    totalRevenue ps = (ps.map (fun p => p.price * (p.units_sold : ℚ))).sum
    ∧ totalUnits ps = (ps.map (fun p => p.units_sold)).sum
    ∧ (withIdx 0 ps).map Prod.snd = ps
    ∧ (sortedEnum ps).Perm (withIdx 0 ps)
    ∧ sortedProducts ps = (sortedEnum ps).map Prod.snd
    ∧ (sortedProducts ps).Perm ps
    ∧ (sortedProducts ps).Pairwise (fun a b => b.units_sold ≤ a.units_sold)
    ∧ (sortedEnum ps).Pairwise
        (fun a b => a.2.units_sold ≠ b.2.units_sold ∨ a.1 < b.1) := by
  have hperm : (sortedEnum ps).Perm (withIdx 0 ps) :=
    List.perm_insertionSort sortKeyLE (withIdx 0 ps)
  have hsorted : (sortedEnum ps).Pairwise sortKeyLE :=
    List.sorted_insertionSort sortKeyLE (withIdx 0 ps)
  have hmap : (withIdx 0 ps).map Prod.snd = ps := map_snd_withIdx 0 ps
  have hpermP : (sortedProducts ps).Perm ps := by
    have h := hperm.map Prod.snd
    rwa [hmap] at h
  have hdesc : (sortedProducts ps).Pairwise (fun a b => b.units_sold ≤ a.units_sold) := by
    refine List.Pairwise.map Prod.snd ?_ hsorted
    intro a b hab
    rcases hab with h | h
    · exact Nat.le_of_lt h
    · exact Nat.le_of_eq h.1.symm
  have hne : (sortedEnum ps).Pairwise (fun a b => a.1 ≠ b.1) := by
    have h0 : (withIdx 0 ps).Pairwise (fun a b => a.1 ≠ b.1) :=
      (withIdx_pairwise_lt 0 ps).imp (fun h => Nat.ne_of_lt h)
    exact (hperm.pairwise_iff (fun h => Ne.symm h)).mpr h0
  have hstable : (sortedEnum ps).Pairwise
      (fun a b => a.2.units_sold ≠ b.2.units_sold ∨ a.1 < b.1) := by
    refine (hsorted.and hne).imp ?_
    intro a b hab
    rcases hab with ⟨hk | hk, hne'⟩
    · exact Or.inl (Ne.symm (Nat.ne_of_lt hk))
    · exact Or.inr (Nat.lt_of_le_of_ne hk.2 hne')
  exact ⟨rfl, rfl, hmap, hperm, rfl, hpermP, hdesc, hstable⟩

/-- C10: inside `_handle_staff_analytics` the keyword families are checked
in the fixed order revenue, units, best seller: a staff message matching
the revenue family gets the revenue answer no matter what else it matches,
and the units family wins over best seller once revenue fails. -/
theorem staff_analytics_family_order (ps : List Product) (msg : String) (lang : Lang) :
    (revenueKwMatch msg = true →
      handleStaffAnalytics .staff ps msg lang =
        some (if lang == .english then fmt_en_revenue ps else fmt_ar_revenue ps))
    ∧ (revenueKwMatch msg = false → unitsKwMatch msg = true →
      handleStaffAnalytics .staff ps msg lang =
        some (if lang == .english then fmt_en_units ps else fmt_ar_units ps)) := by
  constructor
  · intro h
    unfold handleStaffAnalytics
    simp [h]
  · intro hr hu
    unfold handleStaffAnalytics
    simp [hr, hu]

/-- Witness for C10: a staff message matching both the revenue and the
best-seller families is answered with the revenue figure; a units-only
message gets the units figure. -/
theorem staff_analytics_family_order_witness :
    revenueKwMatch "total revenue and best seller" = true
    ∧ bestKwMatch "total revenue and best seller" = true
    ∧ handleStaffAnalytics .staff [] "total revenue and best seller" .english =
        some (if (Lang.english == Lang.english : Bool) then fmt_en_revenue []
              else fmt_ar_revenue [])
    ∧ revenueKwMatch "units sold" = false
    ∧ handleStaffAnalytics .staff [] "units sold" .english =
        some (if (Lang.english == Lang.english : Bool) then fmt_en_units []
              else fmt_ar_units []) :=
  ⟨by decide, by decide,
   (staff_analytics_family_order [] "total revenue and best seller" .english).1 (by decide),
   by decide,
   (staff_analytics_family_order [] "units sold" .english).2 (by decide) (by decide)⟩
